import Mathlib

/-
Shallow embedding of the statscore regression engine and insight layer.

Numbers are modelled as exact rationals.  JavaScript numeric values that can
be NaN are modelled by the type JNum below (a rational or nan); infinities
never arise along the executed paths because every division in the engine is
guarded by a zero test on the divisor.  A y-value that is absent (null in the
source) is modelled by Option.

Sources embedded here:
  - packages/stats/src/regression/util.ts   (round, rSquared, isValid)
  - packages/stats/src/regression/const.ts  (DEFAULT_OPTIONS, linear)
  - src/regression/linear.ts                (_linear, the older engine)
  - packages/forge/src/regression/summary.ts      (regressionSummary)
  - packages/forge/src/regression (correlation)   (correlationStrength)
  - packages/forge/src/regression (regressionError)
  - packages/forge/src/regression/linear.ts       (linearRegressionInsights)
-/

/-- A JavaScript number that may be NaN: either an exact rational or nan. -/
inductive JNum where
  | num (q : ℚ)
  | nan
deriving DecidableEq

/-- JavaScript comparison a >= b: false whenever either side is NaN. -/
def jge : JNum → JNum → Bool
  | JNum.num a, JNum.num b => decide (b ≤ a)
  | _, _ => false

/-- A data point [x, y]; y is Option to model a null y-value. -/
abbrev DataPoint := ℚ × Option ℚ

/-- A fitted point [x, predicted y]. -/
abbrev PredictedPoint := ℚ × ℚ

/-- The error kinds of the RegressionError union in types.ts. -/
inductive ErrorType where
  | InsufficientData
  | DegenerateInput
  | MathError
  | InvalidInput
  | NumericalStability
deriving DecidableEq

/-- RegressionError from types.ts: an error kind and a message. -/
structure RegressionError where
  errorType : ErrorType
  message : String

/-- RegressionSuccess from packages/stats types.ts.  The rSquared field is a
JNum because its documented range includes an undefined case; the engine
below only ever stores a rational there. -/
structure RegressionSuccess where
  m : ℚ
  b : ℚ
  rSquared : JNum
  method : String
  points : List PredictedPoint
  predict : ℚ → PredictedPoint

/-- RegressionResult: the tagged union discriminated by ok. -/
inductive RegressionResult where
  | success (s : RegressionSuccess)
  | error (e : RegressionError)

/-- The older RegressionSuccess shape from src/regression/types.ts: equation
list, r2 (which may be NaN since the old engine has no NaN guard) and a
string rendering of the equation. -/
structure OldRegressionSuccess where
  points : List PredictedPoint
  predict : ℚ → PredictedPoint
  equation : List ℚ
  r2 : JNum
  string : String

/-- Result union of the older engine. -/
inductive OldRegressionResult where
  | success (s : OldRegressionSuccess)
  | error (e : RegressionError)

/-- Merged RegressionOptions (const.ts): order, precision, period.  The
precision is Option so that an unset or non-finite precision (which the
round function treats as no rounding) is representable as none. -/
structure RegressionOptions where
  order : ℤ
  precision : Option ℤ
  period : Option ℤ

/-- DEFAULT_OPTIONS from const.ts: order 2, precision 2, period null. -/
def DEFAULT_OPTIONS : RegressionOptions := ⟨2, some 2, none⟩

/-- A Partial RegressionOptions as supplied by the caller: each field may be
absent, in which case the default is used by mergeOptions. -/
structure SuppliedOptions where
  order : Option ℤ
  precision : Option (Option ℤ)
  period : Option (Option ℤ)

/-- The caller supplied no options at all. -/
def noOptions : SuppliedOptions := ⟨none, none, none⟩

/-- The spread merge of DEFAULT_OPTIONS with the supplied options. -/
def mergeOptions (s : SuppliedOptions) : RegressionOptions :=
  ⟨s.order.getD DEFAULT_OPTIONS.order,
   s.precision.getD DEFAULT_OPTIONS.precision,
   s.period.getD DEFAULT_OPTIONS.period⟩

/-- The precision the engine will round with, after the options merge. -/
def mergedPrecision (s : SuppliedOptions) : Option ℤ :=
  (mergeOptions s).precision

/-- JavaScript Math.round on an exact value: floor (x + 1/2), which rounds
half-values toward positive infinity exactly as Math.round does. -/
def jsRound (x : ℚ) : ℚ := ((⌊x + 1/2⌋ : ℤ) : ℚ)

/-- The round helper of util.ts: with no usable precision return the number
unchanged, otherwise Math.round (number * 10 ^ precision) / 10 ^ precision. -/
def roundQ (x : ℚ) (p : Option ℤ) : ℚ :=
  match p with
  | none => x
  | some k => jsRound (x * (10 : ℚ) ^ k) / (10 : ℚ) ^ k

/-- Round lifted to JNum: Math.round of NaN is NaN. -/
def roundJ (j : JNum) (p : Option ℤ) : JNum :=
  match j with
  | JNum.nan => JNum.nan
  | JNum.num q => JNum.num (roundQ q p)

/-- isValid of util.ts applied to an x coordinate.  A rational is never
null, NaN or infinite, so this is constantly true in the model. -/
def isValidQ (_ : ℚ) : Bool := true

/-- isValid of util.ts applied to a y value that may be null. -/
def isValidY : Option ℚ → Bool
  | none => false
  | some _ => true

/-- The y-filter both engines use: keep the points whose y is present,
unwrapping the Option. -/
def validPoints : List DataPoint → List (ℚ × ℚ)
  | [] => []
  | pt :: rest =>
    match pt.2 with
    | none => validPoints rest
    | some y => (pt.1, y) :: validPoints rest

/-- Sum of the x values (the sumX accumulator of the engine loop). -/
def sumX : List (ℚ × ℚ) → ℚ
  | [] => 0
  | pt :: rest => pt.1 + sumX rest

/-- Sum of the y values (the sumY accumulator). -/
def sumY : List (ℚ × ℚ) → ℚ
  | [] => 0
  | pt :: rest => pt.2 + sumY rest

/-- Sum of x*x (the sumX2 accumulator). -/
def sumX2 : List (ℚ × ℚ) → ℚ
  | [] => 0
  | pt :: rest => pt.1 * pt.1 + sumX2 rest

/-- Sum of x*y (the sumXY accumulator). -/
def sumXY : List (ℚ × ℚ) → ℚ
  | [] => 0
  | pt :: rest => pt.1 * pt.2 + sumXY rest

/-- Sum of y*y (the sumY2 accumulator, kept for fidelity; unused by the
result). -/
def sumY2 : List (ℚ × ℚ) → ℚ
  | [] => 0
  | pt :: rest => pt.2 * pt.2 + sumY2 rest

/-- The denominator run = len * sumX2 - sumX * sumX of both engines. -/
def runOf (len : ℚ) (v : List (ℚ × ℚ)) : ℚ :=
  len * sumX2 v - sumX v * sumX v

/-- The numerator rise = len * sumXY - sumX * sumY of both engines. -/
def riseOf (len : ℚ) (v : List (ℚ × ℚ)) : ℚ :=
  len * sumXY v - sumX v * sumY v

/-- gradient = round (rise / run, precision), as computed by both engines. -/
def linSlope (p : Option ℤ) (len : ℚ) (v : List (ℚ × ℚ)) : ℚ :=
  roundQ (riseOf len v / runOf len v) p

/-- intercept = round (sumY / len - gradient * sumX / len, precision). -/
def linIntercept (p : Option ℤ) (len : ℚ) (v : List (ℚ × ℚ)) : ℚ :=
  roundQ (sumY v / len - linSlope p len v * sumX v / len) p

/-- The predict closure both engines build: x maps to
(round (x, precision), round (gradient * x + intercept, precision)). -/
def mkPredict (p : Option ℤ) (g b : ℚ) : ℚ → PredictedPoint :=
  fun x => (roundQ x p, roundQ (g * x + b) p)

/-- points = data.map (point => predict (point[0])), over the original data. -/
def mkPoints (p : Option ℤ) (g b : ℚ) (data : List DataPoint) : List PredictedPoint :=
  data.map (fun pt => mkPredict p g b pt.1)

/-- The observation/prediction pairing of rSquared in util.ts: walk data and
results by index and keep the pairs whose observed y is present.  The source
indexes results[i]; at every call site both lists have the same length, so
walking them in lockstep is the same pairing. -/
def obsOf : List DataPoint → List PredictedPoint → List ((ℚ × ℚ) × PredictedPoint)
  | [], _ => []
  | _ :: _, [] => []
  | d :: ds, r :: rs =>
    match d.2 with
    | none => obsOf ds rs
    | some y => ((d.1, y), r) :: obsOf ds rs

/-- Sum of the observed y values over the rSquared observations. -/
def sumObsY : List ((ℚ × ℚ) × PredictedPoint) → ℚ
  | [] => 0
  | o :: rest => o.1.2 + sumObsY rest

/-- meanY of the observations in rSquared. -/
def meanYOf (obs : List ((ℚ × ℚ) × PredictedPoint)) : ℚ :=
  sumObsY obs / (obs.length : ℚ)

/-- Accumulator of the squared deviations of the observed y values from a
given mean. -/
def ssyyAux (meanY : ℚ) : List ((ℚ × ℚ) × PredictedPoint) → ℚ
  | [] => 0
  | o :: rest => (o.1.2 - meanY) * (o.1.2 - meanY) + ssyyAux meanY rest

/-- ssyy of rSquared: total sum of squares of the observed y values. -/
def ssyyOf (obs : List ((ℚ × ℚ) × PredictedPoint)) : ℚ :=
  ssyyAux (meanYOf obs) obs

/-- sse of rSquared: residual sum of squares between observed and predicted. -/
def sseOf : List ((ℚ × ℚ) × PredictedPoint) → ℚ
  | [] => 0
  | o :: rest => (o.1.2 - o.2.2) * (o.1.2 - o.2.2) + sseOf rest

/-- rSquared from util.ts.  Returns nan when there are no valid observations,
1 when ssyy = 0 = sse, nan when ssyy = 0 but sse is nonzero, and otherwise
1 - sse / ssyy. -/
def rSquaredJ (data : List DataPoint) (results : List PredictedPoint) : JNum :=
  let obs := obsOf data results
  if obs.length = 0 then JNum.nan
  else if ssyyOf obs = 0 then
    (if sseOf obs = 0 then JNum.num 1 else JNum.nan)
  else JNum.num (1 - sseOf obs / ssyyOf obs)

/-- The validation loop of the packages/stats linear: index of the first
point whose x or y fails isValid, if any. -/
def firstInvalidAux : ℕ → List DataPoint → Option ℕ
  | _, [] => none
  | n, pt :: rest =>
    if isValidQ pt.1 && isValidY pt.2 then firstInvalidAux (n + 1) rest
    else some n

/-- Index of the first invalid point of the data, if any. -/
def firstInvalid (data : List DataPoint) : Option ℕ := firstInvalidAux 0 data

/-- In the rational model a computed coefficient is never NaN or infinite
(every division in the engine is guarded by a zero test on the divisor), so
the isNaN/isFinite coefficient check of const.ts never fires. -/
def qNonFinite (_ : ℚ) : Bool := false

/-- A modelled rendering of a JavaScript number as a string (used only
inside message and chart-directive strings; no verified property depends on the
digits produced). -/
def jsNumStr (q : ℚ) : String := toString q

/-- The linear engine of packages/stats/src/regression/const.ts.  Follows
the source step by step: length check on the raw data, isValid loop,
degenerate denominator check, rounded coefficients, (vacuous in the model)
non-finite coefficient check, predict/points construction, and the NaN
check on rSquared. -/
def linear (suppliedOptions : SuppliedOptions) (data : List DataPoint) :
    RegressionResult :=
  let p := mergedPrecision suppliedOptions
  if data.length < 2 then
    RegressionResult.error ⟨ErrorType.InsufficientData,
      "Linear regression requires at least 2 valid data points (x, y). Received "
        ++ toString data.length ++ "."⟩
  else
    match firstInvalid data with
    | some n =>
      RegressionResult.error ⟨ErrorType.InvalidInput,
        "Data point at index " ++ toString n
          ++ " contains non-finite values. Linear regression requires finite numerical inputs."⟩
    | none =>
      let v := validPoints data
      let len : ℚ := (data.length : ℚ)
      if runOf len v = 0 then
        RegressionResult.error ⟨ErrorType.DegenerateInput,
          "Cannot perform linear regression: all x-values are identical, resulting in a vertical line."⟩
      else
        let gradient := linSlope p len v
        let intercept := linIntercept p len v
        if qNonFinite gradient || qNonFinite intercept then
          RegressionResult.error ⟨ErrorType.MathError,
            "Linear regression resulted in non-finite coefficients (NaN or Infinity)."⟩
        else
          let points := mkPoints p gradient intercept data
          match rSquaredJ data points with
          | JNum.nan =>
            RegressionResult.error ⟨ErrorType.MathError,
              "R-squared calculation failed or resulted in NaN."⟩
          | JNum.num r2 =>
            RegressionResult.success
              ⟨gradient, intercept, JNum.num (roundQ r2 p), "linear",
               points, mkPredict p gradient intercept⟩

/-- The older _linear engine of src/regression/linear.ts.  It first filters
out the points whose y is null, checks the filtered length, fits over the
filtered points only, and has no NaN guards: r2 may be NaN in a success. -/
def oldLinear (suppliedOptions : SuppliedOptions) (data : List DataPoint) :
    OldRegressionResult :=
  let p := mergedPrecision suppliedOptions
  let filteredData := validPoints data
  if filteredData.length < 2 then
    OldRegressionResult.error ⟨ErrorType.InsufficientData,
      "Linear regression requires at least 2 valid data points (x, y). Received "
        ++ toString filteredData.length ++ "."⟩
  else
    let len : ℚ := (filteredData.length : ℚ)
    if runOf len filteredData = 0 then
      OldRegressionResult.error ⟨ErrorType.DegenerateInput,
        "Cannot perform linear regression: all x-values are identical, resulting in a vertical line."⟩
    else
      let gradient := linSlope p len filteredData
      let intercept := linIntercept p len filteredData
      let points := mkPoints p gradient intercept data
      OldRegressionResult.success
        ⟨points, mkPredict p gradient intercept, [gradient, intercept],
         roundJ (rSquaredJ data points) p,
         if intercept = 0 then "y = " ++ jsNumStr gradient ++ "x"
         else "y = " ++ jsNumStr gradient ++ "x + " ++ jsNumStr intercept⟩

/-- Projection: the ok discriminant of a RegressionResult. -/
def isOk : RegressionResult → Bool
  | RegressionResult.success _ => true
  | RegressionResult.error _ => false

/-- Projection: the error kind of a RegressionResult, when it is an error. -/
def errorTypeOf : RegressionResult → Option ErrorType
  | RegressionResult.success _ => none
  | RegressionResult.error e => some e.errorType

/-- Projection: the slope m of a success (junk 0 on an error). -/
def getM : RegressionResult → ℚ
  | RegressionResult.success s => s.m
  | RegressionResult.error _ => 0

/-- Projection: the intercept b of a success (junk 0 on an error). -/
def getB : RegressionResult → ℚ
  | RegressionResult.success s => s.b
  | RegressionResult.error _ => 0

/-- Projection: the rSquared of a success. -/
def getRSquared : RegressionResult → Option JNum
  | RegressionResult.success s => some s.rSquared
  | RegressionResult.error _ => none

/-- Projection: the fitted points of a success (junk [] on an error). -/
def getPoints : RegressionResult → List PredictedPoint
  | RegressionResult.success s => s.points
  | RegressionResult.error _ => []

/-- Projection: the predict function of a success (junk on an error). -/
def getPredict : RegressionResult → (ℚ → PredictedPoint)
  | RegressionResult.success s => s.predict
  | RegressionResult.error _ => fun _ => (0, 0)

/-- Projection: the ok discriminant of an OldRegressionResult. -/
def oldIsOk : OldRegressionResult → Bool
  | OldRegressionResult.success _ => true
  | OldRegressionResult.error _ => false

/-- Projection: the error kind of an OldRegressionResult error. -/
def oldErrorTypeOf : OldRegressionResult → Option ErrorType
  | OldRegressionResult.success _ => none
  | OldRegressionResult.error e => some e.errorType

/-- Projection: the fitted points of an old success (junk [] on an error). -/
def oldPoints : OldRegressionResult → List PredictedPoint
  | OldRegressionResult.success s => s.points
  | OldRegressionResult.error _ => []

/-- Projection: the equation [gradient, intercept] of an old success. -/
def oldEquation : OldRegressionResult → List ℚ
  | OldRegressionResult.success s => s.equation
  | OldRegressionResult.error _ => []

/-- Projection: the r2 of an old success. -/
def oldR2 : OldRegressionResult → Option JNum
  | OldRegressionResult.success s => some s.r2
  | OldRegressionResult.error _ => none

/-- Structured data attached to a GeneratedInsight: either the trend line
parameters m and b, or the rSquared value. -/
inductive InsightData where
  | trend (m b : ℚ)
  | corr (rSquared : JNum)
deriving DecidableEq

/-- GeneratedInsight: summary text, insight kind tag, structured data and an
optional list of chart directive strings (the annots list field of the
source). -/
structure GeneratedInsight where
  summary : String
  type : String
  data : InsightData
  annots : Option (List String)
deriving DecidableEq

/-- InsightOptions (LinearInsightGenerationOptions): every field optional,
with defaults applied inside the generators. -/
structure InsightOptions where
  rSquaredThresholdWeak : Option ℚ
  rSquaredThresholdStrong : Option ℚ
  pValueSignificanceLevel : Option ℚ
  outlierZScoreThreshold : Option ℚ

/-- The caller supplied no insight options. -/
def noInsightOptions : InsightOptions := ⟨none, none, none, none⟩

/-- InsightResultError: user-facing message, help text and the preserved
original error kind (the ok false tag is carried by the result union). -/
structure InsightResultError where
  message : String
  helpText : String
  originalErrorType : ErrorType
deriving DecidableEq

/-- LinearInsightsOutput: either an ordered list of insights or a translated
error. -/
inductive LinearInsightsOutput where
  | ok (insights : List GeneratedInsight)
  | err (e : InsightResultError)

/-- Projection: the insights list of an ok output. -/
def insightsOf : LinearInsightsOutput → Option (List GeneratedInsight)
  | LinearInsightsOutput.ok l => some l
  | LinearInsightsOutput.err _ => none

/-- Projection: the translated error of an err output. -/
def insightErrOf : LinearInsightsOutput → Option InsightResultError
  | LinearInsightsOutput.ok _ => none
  | LinearInsightsOutput.err e => some e

/-- Two-digit zero padding used by the toFixed rendering. -/
def padTwo (n : ℕ) : String :=
  if n < 10 then "0" ++ toString n else toString n

/-- A modelled toFixed(2): NaN renders as the string NaN, a rational rounds
its hundredths and renders sign, integer part and two decimals.  No verified
property depends on the exact digits produced. -/
def toFixed2 : JNum → String
  | JNum.nan => "NaN"
  | JNum.num q =>
    (if ⌊q * 100 + 1/2⌋ < 0 then "-" else "")
      ++ toString ((⌊q * 100 + 1/2⌋ : ℤ).natAbs / 100) ++ "."
      ++ padTwo ((⌊q * 100 + 1/2⌋ : ℤ).natAbs % 100)

/-- The summary template of the strong branch of correlationStrength. -/
def strongSummary (s : String) : String :=
  "There is a strong linear correlation (R-squared: " ++ s
    ++ "), indicating the model explains a large portion of the variance."

/-- The summary template of the moderate branch of correlationStrength. -/
def moderateSummary (s : String) : String :=
  "There is a moderate linear correlation (R-squared: " ++ s ++ ")."

/-- The summary template of the weak branch of correlationStrength. -/
def weakSummary (s : String) : String :=
  "There is a weak linear correlation (R-squared: " ++ s
    ++ "), suggesting the linear model may not be the best fit or other factors are at play."

/-- correlationStrength from the forge package: classify rSquared against
the weak (default 0.3) and strong (default 0.7) thresholds with the
JavaScript >= comparison, which is false on NaN. -/
def correlationStrength (options : InsightOptions) (result : RegressionSuccess) :
    GeneratedInsight :=
  let rSqWeak := options.rSquaredThresholdWeak.getD (3/10)
  let rSqStrong := options.rSquaredThresholdStrong.getD (7/10)
  if jge result.rSquared (JNum.num rSqStrong) then
    ⟨strongSummary (toFixed2 result.rSquared), "CorrelationStrength",
     InsightData.corr result.rSquared, none⟩
  else if jge result.rSquared (JNum.num rSqWeak) then
    ⟨moderateSummary (toFixed2 result.rSquared), "CorrelationStrength",
     InsightData.corr result.rSquared, none⟩
  else
    ⟨weakSummary (toFixed2 result.rSquared), "CorrelationStrength",
     InsightData.corr result.rSquared, none⟩

/-- regressionSummary from summary.ts: classify the slope sign and attach
the drawTrendLine chart directive. -/
def regressionSummary (result : RegressionSuccess) : GeneratedInsight :=
  ⟨if 0 < result.m then
      "There is a positive linear trend. As X increases, Y tends to increase."
    else if result.m < 0 then
      "There is a negative linear trend. As X increases, Y tends to decrease."
    else
      "There is no significant linear trend. Y remains relatively constant as X changes.",
   "TrendDescription",
   InsightData.trend result.m result.b,
   some ["drawTrendLine:" ++ jsNumStr result.m ++ "," ++ jsNumStr result.b]⟩

/-- regressionError, the error translator: the two specific mappings and the
deliberate catch-all default branch, always preserving the original kind. -/
def regressionError (errorResult : RegressionError) : InsightResultError :=
  match errorResult.errorType with
  | ErrorType.InsufficientData =>
    ⟨"Unable to calculate trend: Not enough data points.",
     "Linear regression requires at least two distinct data points. Please provide more data.",
     errorResult.errorType⟩
  | ErrorType.InvalidInput =>
    ⟨"Invalid data provided.",
     "Ensure your data only contains valid numerical values (e.g., no null, undefined, or non-numeric strings).",
     errorResult.errorType⟩
  | _ =>
    ⟨"An unexpected error occurred during linear regression calculation.",
     "Please contact support with the details of the data you were trying to analyze.",
     errorResult.errorType⟩

/-- linearRegressionInsights from the forge package: translate an error
result, or push the trend summary and then the correlation strength insight
for a success. -/
def linearRegressionInsights (options : InsightOptions)
    (statsResult : RegressionResult) : LinearInsightsOutput :=
  match statsResult with
  | RegressionResult.error e => LinearInsightsOutput.err (regressionError e)
  | RegressionResult.success s =>
    LinearInsightsOutput.ok [regressionSummary s, correlationStrength options s]

/-- C1 example data from the spec: [[1,2],[2,null],[3,4],[4,null],[5,6]]. -/
def exC1data : List DataPoint :=
  [(1, some 2), (2, none), (3, some 4), (4, none), (5, some 6)]

/-- C2 counterexample data: x 0 and 1 with y 0.004 and 0.006.  The exact
slope 0.002 rounds to 0 at the default precision 2 while the intercept
rounds to 0.01, so the fitted values sit far outside the tiny spread of the
observed y values and rSquared evaluates to -25. -/
def cexC2data : List DataPoint := [(0, some (1/250)), (1, some (3/500))]

/-- C3 witness data: two points with the identical y 0.004, whose intercept
rounds to 0 at the default precision 2, leaving zero variance with nonzero
residual: the NaN rSquared case. -/
def cexC3data : List DataPoint := [(0, some (1/250)), (1, some (1/250))]

/-- C7 witness data: a vertical line at x = 1. -/
def exC7data : List DataPoint := [(1, some 1), (1, some 2), (1, some 3)]

/-- C8 witness options: precision 0, where rounding effects are visible. -/
def optsC8 : SuppliedOptions := ⟨none, some (some 0), none⟩

/-- C8 witness data: the line y = x + 1 through two points. -/
def exC8data : List DataPoint := [(1, some 2), (2, some 3)]

/-- C9 witness options: precision 1. -/
def optsC9 : SuppliedOptions := ⟨none, some (some 1), none⟩

/-- C9 witness data: the first x 1.25 is not representable at precision 1,
so the emitted points must carry the rounded x 1.3. -/
def exC9data : List DataPoint := [(5/4, some 2), (2, some 3)]

/-- C4: for every successful regression result carrying a numeric rSquared,
and thresholds in the weak-below-strong order the spec describes,
correlationStrength classifies rSquared at or above the strong threshold
(default 0.7) as the strong insight, between the weak threshold (default
0.3) inclusive and the strong threshold exclusive as the moderate insight,
and below the weak threshold as the weak insight; both lower bounds are
inclusive toward the higher tier. -/
theorem spec_C4 (options : InsightOptions) (result : RegressionSuccess) (q : ℚ)
    (hq : result.rSquared = JNum.num q)
    (hord : options.rSquaredThresholdWeak.getD (3/10)
      ≤ options.rSquaredThresholdStrong.getD (7/10)) :
    (options.rSquaredThresholdStrong.getD (7/10) ≤ q →
      correlationStrength options result =
        ⟨strongSummary (toFixed2 result.rSquared), "CorrelationStrength",
         InsightData.corr result.rSquared, none⟩)
    ∧ (options.rSquaredThresholdWeak.getD (3/10) ≤ q
        ∧ q < options.rSquaredThresholdStrong.getD (7/10) →
      correlationStrength options result =
        ⟨moderateSummary (toFixed2 result.rSquared), "CorrelationStrength",
         InsightData.corr result.rSquared, none⟩)
    ∧ (q < options.rSquaredThresholdWeak.getD (3/10) →
      correlationStrength options result =
        ⟨weakSummary (toFixed2 result.rSquared), "CorrelationStrength",
         InsightData.corr result.rSquared, none⟩) := by
  refine ⟨fun hs => ?_, fun hm => ?_, fun hw => ?_⟩ <;>
    simp only [correlationStrength, hq, jge]
  · rw [if_pos (by simpa using hs)]
  · rw [if_neg (by simpa using not_le.mpr hm.2), if_pos (by simpa using hm.1)]
  · rw [if_neg (by simpa using not_le.mpr (lt_of_lt_of_le hw hord)),
      if_neg (by simpa using not_le.mpr hw)]

/-- C4 witness: with no options (thresholds default to 0.3 and 0.7), an
rSquared of exactly 0.7 classifies as the strong insight and an rSquared of
exactly 0.3 classifies as the moderate insight. -/
theorem spec_C4_witness :
    correlationStrength noInsightOptions
        ⟨0, 0, JNum.num (7/10), "linear", [], fun x => (x, x)⟩ =
      ⟨strongSummary (toFixed2 (JNum.num (7/10))), "CorrelationStrength",
       InsightData.corr (JNum.num (7/10)), none⟩
    ∧ correlationStrength noInsightOptions
        ⟨0, 0, JNum.num (3/10), "linear", [], fun x => (x, x)⟩ =
      ⟨moderateSummary (toFixed2 (JNum.num (3/10))), "CorrelationStrength",
       InsightData.corr (JNum.num (3/10)), none⟩ := by
  constructor
  · exact (spec_C4 noInsightOptions _ (7/10) rfl
      (by norm_num [noInsightOptions])).1 (by norm_num [noInsightOptions])
  · exact (spec_C4 noInsightOptions _ (3/10) rfl
      (by norm_num [noInsightOptions])).2.1 (by norm_num [noInsightOptions])

/-- C10: a regression success record whose rSquared is NaN classifies as the
weak correlation insight (both JavaScript threshold comparisons are false on
NaN) with the NaN value preserved in the structured data, rather than
producing any error. -/
theorem spec_C10 (options : InsightOptions) (result : RegressionSuccess)
    (h : result.rSquared = JNum.nan) :
    correlationStrength options result =
      ⟨weakSummary "NaN", "CorrelationStrength", InsightData.corr JNum.nan, none⟩ := by
  simp [correlationStrength, h, jge, toFixed2]

/-- C10 witness: a concrete success record with NaN rSquared produces the
weak correlation insight, under default options. -/
theorem spec_C10_witness :
    correlationStrength noInsightOptions
        ⟨2, 1, JNum.nan, "linear", [], fun x => (x, x)⟩ =
      ⟨weakSummary "NaN", "CorrelationStrength", InsightData.corr JNum.nan, none⟩ :=
  spec_C10 noInsightOptions _ rfl

/-- C5: for every successful regression result, generateInsights returns an
ok output holding exactly two insight records, in the fixed order trend
description first and correlation strength second. -/
theorem spec_C5 (options : InsightOptions) (s : RegressionSuccess) :
    linearRegressionInsights options (RegressionResult.success s) =
      LinearInsightsOutput.ok [regressionSummary s, correlationStrength options s]
    ∧ (insightsOf (linearRegressionInsights options (RegressionResult.success s))).map
        List.length = some 2
    ∧ (insightsOf (linearRegressionInsights options (RegressionResult.success s))).map
        (List.map GeneratedInsight.type) =
      some ["TrendDescription", "CorrelationStrength"] := by
  refine ⟨rfl, by simp [linearRegressionInsights, insightsOf], ?_⟩
  have ht : (regressionSummary s).type = "TrendDescription" := rfl
  have hc : (correlationStrength options s).type = "CorrelationStrength" := by
    simp only [correlationStrength]
    split
    · rfl
    · split <;> rfl
  simp [linearRegressionInsights, insightsOf, ht, hc]

/-- C6: the error translator is total: InsufficientData and InvalidInput map
to their specific message and help-text pairs, every other kind maps to the
generic unexpected-error message with the support-contact help text, the
returned originalErrorType always equals the input kind, and
generateInsights on an error result returns exactly this translation. -/
theorem spec_C6 (e : RegressionError) (options : InsightOptions) :
    (regressionError e).originalErrorType = e.errorType
    ∧ (e.errorType = ErrorType.InsufficientData →
        regressionError e =
          ⟨"Unable to calculate trend: Not enough data points.",
           "Linear regression requires at least two distinct data points. Please provide more data.",
           e.errorType⟩)
    ∧ (e.errorType = ErrorType.InvalidInput →
        regressionError e =
          ⟨"Invalid data provided.",
           "Ensure your data only contains valid numerical values (e.g., no null, undefined, or non-numeric strings).",
           e.errorType⟩)
    ∧ (e.errorType ≠ ErrorType.InsufficientData → e.errorType ≠ ErrorType.InvalidInput →
        regressionError e =
          ⟨"An unexpected error occurred during linear regression calculation.",
           "Please contact support with the details of the data you were trying to analyze.",
           e.errorType⟩)
    ∧ linearRegressionInsights options (RegressionResult.error e) =
        LinearInsightsOutput.err (regressionError e) := by
  obtain ⟨k, msg⟩ := e
  cases k <;> simp [regressionError, linearRegressionInsights]

/-- C6 witness: the translator at a MathError (generic fallback preserving
the kind) and at an InsufficientData error (specific mapping). -/
theorem spec_C6_witness :
    regressionError ⟨ErrorType.MathError, "Error"⟩ =
      ⟨"An unexpected error occurred during linear regression calculation.",
       "Please contact support with the details of the data you were trying to analyze.",
       ErrorType.MathError⟩
    ∧ regressionError ⟨ErrorType.InsufficientData, "Error"⟩ =
      ⟨"Unable to calculate trend: Not enough data points.",
       "Linear regression requires at least two distinct data points. Please provide more data.",
       ErrorType.InsufficientData⟩ :=
  ⟨(spec_C6 ⟨ErrorType.MathError, "Error"⟩ noInsightOptions).2.2.2.1
      (by decide) (by decide),
   (spec_C6 ⟨ErrorType.InsufficientData, "Error"⟩ noInsightOptions).2.1 rfl⟩

/-- The residual sum of squares is a sum of squares, hence nonnegative. -/
theorem sseOf_nonneg (obs : List ((ℚ × ℚ) × PredictedPoint)) : 0 ≤ sseOf obs := by
  induction obs with
  | nil => simp [sseOf]
  | cons o rest ih => simpa [sseOf] using add_nonneg (mul_self_nonneg _) ih

/-- The total sum of squares is a sum of squares, hence nonnegative. -/
theorem ssyyAux_nonneg (m : ℚ) (obs : List ((ℚ × ℚ) × PredictedPoint)) :
    0 ≤ ssyyAux m obs := by
  induction obs with
  | nil => simp [ssyyAux]
  | cons o rest ih => simpa [ssyyAux] using add_nonneg (mul_self_nonneg _) ih

/-- Whenever rSquared produces a rational (rather than NaN), that rational
is at most 1: it is either exactly 1 or 1 minus a nonnegative quotient. -/
theorem rSquaredJ_num_le_one (data : List DataPoint) (results : List PredictedPoint)
    (q : ℚ) (h : rSquaredJ data results = JNum.num q) : q ≤ 1 := by
  simp only [rSquaredJ] at h
  split at h
  · exact absurd h (by simp)
  · split at h
    · split at h
      · injection h with h1
        cases h1
        exact le_refl 1
      · exact absurd h (by simp)
    · next hss =>
      injection h with h1
      have h0 : (0 : ℚ) ≤ ssyyOf (obsOf data results) := ssyyAux_nonneg _ _
      have hssyy : 0 < ssyyOf (obsOf data results) :=
        lt_of_le_of_ne h0 (fun hc => hss hc.symm)
      have hdiv : 0 ≤ sseOf (obsOf data results) / ssyyOf (obsOf data results) :=
        div_nonneg (sseOf_nonneg _) hssyy.le
      linarith

/-- Rounding cannot push a value that is at most 1 above 1: for nonnegative
precision the rounded value stays at most 1, and for negative precision it
is at most 0. -/
theorem roundQ_le_one (q : ℚ) (p : Option ℤ) (h : q ≤ 1) : roundQ q p ≤ 1 := by
  cases p with
  | none => simpa [roundQ] using h
  | some k =>
    simp only [roundQ, jsRound]
    have h10 : (0 : ℚ) < (10 : ℚ) ^ k := zpow_pos (by norm_num) k
    have hmul : q * (10 : ℚ) ^ k ≤ (10 : ℚ) ^ k := by
      calc q * (10 : ℚ) ^ k ≤ 1 * (10 : ℚ) ^ k :=
            mul_le_mul_of_nonneg_right h h10.le
        _ = (10 : ℚ) ^ k := one_mul _
    rcases le_or_lt 0 k with hk | hk
    · have hn : (((10 : ℤ) ^ k.toNat : ℤ) : ℚ) = (10 : ℚ) ^ k := by
        push_cast
        rw [← zpow_natCast (10 : ℚ) k.toNat, Int.toNat_of_nonneg hk]
      have hfl : ⌊q * (10 : ℚ) ^ k + 1/2⌋ ≤ (10 : ℤ) ^ k.toNat := by
        have h1 : ⌊q * (10 : ℚ) ^ k + 1/2⌋ ≤ ⌊(((10 : ℤ) ^ k.toNat : ℤ) : ℚ) + 1/2⌋ :=
          Int.floor_le_floor (by rw [hn]; linarith)
        have h2 : ⌊(((10 : ℤ) ^ k.toNat : ℤ) : ℚ) + 1/2⌋ = (10 : ℤ) ^ k.toNat + ⌊(1:ℚ)/2⌋ :=
          Int.floor_int_add _ _
        have h3 : ⌊(1 : ℚ)/2⌋ = 0 := by norm_num
        omega
      rw [div_le_one h10]
      calc ((⌊q * (10 : ℚ) ^ k + 1/2⌋ : ℤ) : ℚ)
          ≤ (((10 : ℤ) ^ k.toNat : ℤ) : ℚ) := Int.cast_le.mpr hfl
        _ = (10 : ℚ) ^ k := hn
    · have hk1 : k ≤ -1 := by omega
      have hsmall : (10 : ℚ) ^ k ≤ (10 : ℚ) ^ (-1 : ℤ) :=
        zpow_le_zpow_right₀ (by norm_num) hk1
      have hten : (10 : ℚ) ^ (-1 : ℤ) = 1/10 := by norm_num
      have hlt : q * (10 : ℚ) ^ k + 1/2 < 1 := by
        rw [hten] at hsmall
        linarith
      have hfl : ⌊q * (10 : ℚ) ^ k + 1/2⌋ ≤ 0 := by
        have := Int.floor_lt.mpr (by exact_mod_cast hlt :
          q * (10 : ℚ) ^ k + 1/2 < ((1 : ℤ) : ℚ))
        omega
      have hcast : ((⌊q * (10 : ℚ) ^ k + 1/2⌋ : ℤ) : ℚ) ≤ 0 := by exact_mod_cast hfl
      have : ((⌊q * (10 : ℚ) ^ k + 1/2⌋ : ℤ) : ℚ) / (10 : ℚ) ^ k ≤ 0 :=
        div_nonpos_of_nonpos_of_nonneg hcast h10.le
      linarith

/-- Branch lemma: with fewer than 2 raw data points the engine returns the
InsufficientData error. -/
theorem linear_insufficient (opts : SuppliedOptions) (data : List DataPoint)
    (h1 : data.length < 2) :
    linear opts data = RegressionResult.error ⟨ErrorType.InsufficientData,
      "Linear regression requires at least 2 valid data points (x, y). Received "
        ++ toString data.length ++ "."⟩ := by
  simp [linear, h1]

/-- Branch lemma: with at least 2 raw points, an invalid point at index n
yields the InvalidInput error. -/
theorem linear_invalid (opts : SuppliedOptions) (data : List DataPoint) (n : ℕ)
    (h1 : ¬data.length < 2) (hfi : firstInvalid data = some n) :
    linear opts data = RegressionResult.error ⟨ErrorType.InvalidInput,
      "Data point at index " ++ toString n
        ++ " contains non-finite values. Linear regression requires finite numerical inputs."⟩ := by
  simp [linear, h1, hfi]

/-- Branch lemma: past the validation steps, a zero denominator yields the
DegenerateInput error. -/
theorem linear_degenerate (opts : SuppliedOptions) (data : List DataPoint)
    (h1 : ¬data.length < 2) (hfi : firstInvalid data = none)
    (h2 : runOf (data.length : ℚ) (validPoints data) = 0) :
    linear opts data = RegressionResult.error ⟨ErrorType.DegenerateInput,
      "Cannot perform linear regression: all x-values are identical, resulting in a vertical line."⟩ := by
  simp [linear, h1, hfi, h2]

/-- Branch lemma: past the validation steps with a nonzero denominator, a
NaN rSquared yields the MathError error. -/
theorem linear_mathError (opts : SuppliedOptions) (data : List DataPoint)
    (h1 : ¬data.length < 2) (hfi : firstInvalid data = none)
    (h2 : runOf (data.length : ℚ) (validPoints data) ≠ 0)
    (hr : rSquaredJ data
      (mkPoints (mergedPrecision opts)
        (linSlope (mergedPrecision opts) (data.length : ℚ) (validPoints data))
        (linIntercept (mergedPrecision opts) (data.length : ℚ) (validPoints data))
        data) = JNum.nan) :
    linear opts data = RegressionResult.error ⟨ErrorType.MathError,
      "R-squared calculation failed or resulted in NaN."⟩ := by
  simp [linear, h1, hfi, h2, qNonFinite, hr]

/-- Branch lemma: past the validation steps with a nonzero denominator and a
numeric rSquared, the engine returns the success record built from the
rounded coefficients, the mapped points and the predict closure. -/
theorem linear_success (opts : SuppliedOptions) (data : List DataPoint) (r2 : ℚ)
    (h1 : ¬data.length < 2) (hfi : firstInvalid data = none)
    (h2 : runOf (data.length : ℚ) (validPoints data) ≠ 0)
    (hr : rSquaredJ data
      (mkPoints (mergedPrecision opts)
        (linSlope (mergedPrecision opts) (data.length : ℚ) (validPoints data))
        (linIntercept (mergedPrecision opts) (data.length : ℚ) (validPoints data))
        data) = JNum.num r2) :
    linear opts data = RegressionResult.success
      ⟨linSlope (mergedPrecision opts) (data.length : ℚ) (validPoints data),
       linIntercept (mergedPrecision opts) (data.length : ℚ) (validPoints data),
       JNum.num (roundQ r2 (mergedPrecision opts)), "linear",
       mkPoints (mergedPrecision opts)
         (linSlope (mergedPrecision opts) (data.length : ℚ) (validPoints data))
         (linIntercept (mergedPrecision opts) (data.length : ℚ) (validPoints data))
         data,
       mkPredict (mergedPrecision opts)
         (linSlope (mergedPrecision opts) (data.length : ℚ) (validPoints data))
         (linIntercept (mergedPrecision opts) (data.length : ℚ) (validPoints data))⟩ := by
  simp [linear, h1, hfi, h2, qNonFinite, hr]

/-- Every run of the engine lands in one of the four branch lemmas. -/
theorem linear_cases (data : List DataPoint) :
    data.length < 2
    ∨ (¬data.length < 2 ∧ ∃ n, firstInvalid data = some n)
    ∨ (¬data.length < 2 ∧ firstInvalid data = none
        ∧ runOf (data.length : ℚ) (validPoints data) = 0)
    ∨ (¬data.length < 2 ∧ firstInvalid data = none
        ∧ runOf (data.length : ℚ) (validPoints data) ≠ 0) := by
  by_cases h1 : data.length < 2
  · exact Or.inl h1
  · cases hfi : firstInvalid data with
    | some n => exact Or.inr (Or.inl ⟨h1, n, rfl⟩)
    | none =>
      by_cases h2 : runOf (data.length : ℚ) (validPoints data) = 0
      · exact Or.inr (Or.inr (Or.inl ⟨h1, rfl, h2⟩))
      · exact Or.inr (Or.inr (Or.inr ⟨h1, rfl, h2⟩))

/-- A data list in which every y is present has no invalid point, whatever
the running index. -/
theorem firstInvalidAux_eq_none (l : List DataPoint)
    (hv : l.all (fun pt => isValidY pt.2) = true) :
    ∀ n, firstInvalidAux n l = none := by
  induction l with
  | nil => intro n; rfl
  | cons pt rest ih =>
    intro n
    simp only [List.all_cons, Bool.and_eq_true] at hv
    simp [firstInvalidAux, isValidQ, hv.1, ih hv.2]

/-- A data list in which every y is present passes the validation loop. -/
theorem firstInvalid_eq_none (data : List DataPoint)
    (hv : data.all (fun pt => isValidY pt.2) = true) :
    firstInvalid data = none :=
  firstInvalidAux_eq_none data hv 0

/-- C2 counterexample: a successful fit whose stored rSquared is -25, far
outside [0,1]: the claim that every success carries an rSquared in [0,1] is
false on the code. -/
theorem spec_C2_counterexample :
    isOk (linear noOptions cexC2data) = true
    ∧ getRSquared (linear noOptions cexC2data) = some (JNum.num (-25))
    ∧ ¬(0 ≤ (-25 : ℚ) ∧ (-25 : ℚ) ≤ 1) := by
  refine ⟨?_, ?_, by norm_num⟩ <;>
  norm_num [linear, mergedPrecision, mergeOptions, DEFAULT_OPTIONS, noOptions, cexC2data,
    validPoints, sumX, sumY, sumX2, sumXY, runOf, riseOf, linSlope, linIntercept,
    roundQ, jsRound, mkPoints, mkPredict, rSquaredJ, obsOf, meanYOf, sumObsY, ssyyOf,
    ssyyAux, sseOf, firstInvalid, firstInvalidAux, isValidQ, isValidY, qNonFinite,
    isOk, getRSquared]

/-- C2 amended: every successful fit carries a numeric (never NaN) rSquared
that is at most 1; the lower bound 0 does not hold, because rounding the
coefficients can degrade the fit below the no-variance baseline. -/
theorem spec_C2_amended (opts : SuppliedOptions) (data : List DataPoint)
    (h : isOk (linear opts data) = true) :
    ∃ q : ℚ, getRSquared (linear opts data) = some (JNum.num q) ∧ q ≤ 1 := by
  rcases linear_cases data with h1 | ⟨h1, n, hfi⟩ | ⟨h1, hfi, h2⟩ | ⟨h1, hfi, h2⟩
  · rw [linear_insufficient opts data h1] at h
    simp [isOk] at h
  · rw [linear_invalid opts data n h1 hfi] at h
    simp [isOk] at h
  · rw [linear_degenerate opts data h1 hfi h2] at h
    simp [isOk] at h
  · cases hr : rSquaredJ data
      (mkPoints (mergedPrecision opts)
        (linSlope (mergedPrecision opts) (data.length : ℚ) (validPoints data))
        (linIntercept (mergedPrecision opts) (data.length : ℚ) (validPoints data))
        data) with
    | nan =>
      rw [linear_mathError opts data h1 hfi h2 hr] at h
      simp [isOk] at h
    | num r2 =>
      rw [linear_success opts data r2 h1 hfi h2 hr]
      exact ⟨roundQ r2 (mergedPrecision opts), rfl,
        roundQ_le_one _ _ (rSquaredJ_num_le_one _ _ _ hr)⟩

/-- C2 amended witness: a concrete success (perfectly collinear data) whose
rSquared is 1, which is at most 1. -/
theorem spec_C2_amended_witness :
    isOk (linear noOptions [(1, some 2), (2, some 3)]) = true
    ∧ ∃ q : ℚ, getRSquared (linear noOptions [(1, some 2), (2, some 3)]) =
        some (JNum.num q) ∧ q ≤ 1 := by
  have h : isOk (linear noOptions [(1, some 2), (2, some 3)]) = true := by
    norm_num [linear, mergedPrecision, mergeOptions, DEFAULT_OPTIONS, noOptions,
      validPoints, sumX, sumY, sumX2, sumXY, runOf, riseOf, linSlope, linIntercept,
      roundQ, jsRound, mkPoints, mkPredict, rSquaredJ, obsOf, meanYOf, sumObsY, ssyyOf,
      ssyyAux, sseOf, firstInvalid, firstInvalidAux, isValidQ, isValidY, qNonFinite, isOk]
  exact ⟨h, spec_C2_amended noOptions _ h⟩

/-- C3: for data that passes validation (at least 2 points, all valid) and
yields coefficients (nonzero denominator), a NaN rSquared makes fit return
the MathError error rather than a success; and rSquared is NaN exactly when
there are zero valid observations or the observed variance is zero with a
nonzero residual. -/
theorem spec_C3 (opts : SuppliedOptions) (data : List DataPoint)
    (h1 : ¬data.length < 2)
    (hv : data.all (fun pt => isValidY pt.2) = true)
    (h2 : runOf (data.length : ℚ) (validPoints data) ≠ 0)
    (hr : rSquaredJ data
      (mkPoints (mergedPrecision opts)
        (linSlope (mergedPrecision opts) (data.length : ℚ) (validPoints data))
        (linIntercept (mergedPrecision opts) (data.length : ℚ) (validPoints data))
        data) = JNum.nan) :
    errorTypeOf (linear opts data) = some ErrorType.MathError
    ∧ isOk (linear opts data) = false
    ∧ (∀ (d : List DataPoint) (r : List PredictedPoint),
        rSquaredJ d r = JNum.nan ↔
          (obsOf d r).length = 0
          ∨ (ssyyOf (obsOf d r) = 0 ∧ sseOf (obsOf d r) ≠ 0)) := by
  have hfi := firstInvalid_eq_none data hv
  rw [linear_mathError opts data h1 hfi h2 hr]
  refine ⟨rfl, rfl, fun d r => ?_⟩
  simp only [rSquaredJ]
  split_ifs with ha hb hc <;> simp_all

/-- C3 witness: on the constant-y data cexC3data the rSquared computation is
NaN and the engine returns the MathError error. -/
theorem spec_C3_witness :
    errorTypeOf (linear noOptions cexC3data) = some ErrorType.MathError
    ∧ isOk (linear noOptions cexC3data) = false := by
  have h1 : ¬cexC3data.length < 2 := by norm_num [cexC3data]
  have hv : cexC3data.all (fun pt => isValidY pt.2) = true := by
    norm_num [cexC3data, isValidY]
  have h2 : runOf (cexC3data.length : ℚ) (validPoints cexC3data) ≠ 0 := by
    norm_num [cexC3data, validPoints, runOf, sumX, sumX2]
  have hr : rSquaredJ cexC3data
      (mkPoints (mergedPrecision noOptions)
        (linSlope (mergedPrecision noOptions) (cexC3data.length : ℚ) (validPoints cexC3data))
        (linIntercept (mergedPrecision noOptions) (cexC3data.length : ℚ) (validPoints cexC3data))
        cexC3data) = JNum.nan := by
    norm_num [cexC3data, validPoints, runOf, riseOf, sumX, sumY, sumX2, sumXY,
      linSlope, linIntercept, roundQ, jsRound, mergedPrecision, mergeOptions,
      DEFAULT_OPTIONS, noOptions, mkPoints, mkPredict, rSquaredJ, obsOf, meanYOf,
      sumObsY, ssyyOf, ssyyAux, sseOf]
  exact ⟨(spec_C3 noOptions cexC3data h1 hv h2 hr).1,
    (spec_C3 noOptions cexC3data h1 hv h2 hr).2.1⟩

/-- C7: for data that passes the validation steps (at least 2 points, all
valid), fit returns the DegenerateInput error exactly when the denominator
n * sum of x squared minus the square of sum of x is zero, and in that case
no success (hence no coefficients) is produced. -/
theorem spec_C7 (opts : SuppliedOptions) (data : List DataPoint)
    (h1 : ¬data.length < 2)
    (hv : data.all (fun pt => isValidY pt.2) = true) :
    (errorTypeOf (linear opts data) = some ErrorType.DegenerateInput
      ↔ runOf (data.length : ℚ) (validPoints data) = 0)
    ∧ (runOf (data.length : ℚ) (validPoints data) = 0 →
        isOk (linear opts data) = false) := by
  have hfi := firstInvalid_eq_none data hv
  by_cases h2 : runOf (data.length : ℚ) (validPoints data) = 0
  · rw [linear_degenerate opts data h1 hfi h2]
    exact ⟨⟨fun _ => h2, fun _ => rfl⟩, fun _ => rfl⟩
  · refine ⟨⟨fun hET => ?_, fun h0 => absurd h0 h2⟩, fun h0 => absurd h0 h2⟩
    exfalso
    cases hr : rSquaredJ data
      (mkPoints (mergedPrecision opts)
        (linSlope (mergedPrecision opts) (data.length : ℚ) (validPoints data))
        (linIntercept (mergedPrecision opts) (data.length : ℚ) (validPoints data))
        data) with
    | nan =>
      rw [linear_mathError opts data h1 hfi h2 hr] at hET
      simp [errorTypeOf] at hET
    | num r2 =>
      rw [linear_success opts data r2 h1 hfi h2 hr] at hET
      simp [errorTypeOf] at hET

/-- C7 witness: the vertical line at x = 1 has a zero denominator and fit
returns the DegenerateInput error. -/
theorem spec_C7_witness :
    errorTypeOf (linear noOptions exC7data) = some ErrorType.DegenerateInput
    ∧ isOk (linear noOptions exC7data) = false := by
  have h1 : ¬exC7data.length < 2 := by norm_num [exC7data]
  have hv : exC7data.all (fun pt => isValidY pt.2) = true := by
    norm_num [exC7data, isValidY]
  have h0 : runOf (exC7data.length : ℚ) (validPoints exC7data) = 0 := by
    norm_num [exC7data, validPoints, runOf, sumX, sumX2]
  exact ⟨(spec_C7 noOptions exC7data h1 hv).1.mpr h0,
    (spec_C7 noOptions exC7data h1 hv).2 h0⟩

/-- C8: for every successful fit and every x, the returned predict function
yields (round (x, precision), round (m * x + b, precision)) where m and b
are the stored coefficients: the multiplication uses the raw x and rounding
touches only the two output components. -/
theorem spec_C8 (opts : SuppliedOptions) (data : List DataPoint)
    (h : isOk (linear opts data) = true) (x : ℚ) :
    getPredict (linear opts data) x =
      (roundQ x (mergedPrecision opts),
       roundQ (getM (linear opts data) * x + getB (linear opts data))
         (mergedPrecision opts)) := by
  rcases linear_cases data with h1 | ⟨h1, n, hfi⟩ | ⟨h1, hfi, h2⟩ | ⟨h1, hfi, h2⟩
  · rw [linear_insufficient opts data h1] at h
    simp [isOk] at h
  · rw [linear_invalid opts data n h1 hfi] at h
    simp [isOk] at h
  · rw [linear_degenerate opts data h1 hfi h2] at h
    simp [isOk] at h
  · cases hr : rSquaredJ data
      (mkPoints (mergedPrecision opts)
        (linSlope (mergedPrecision opts) (data.length : ℚ) (validPoints data))
        (linIntercept (mergedPrecision opts) (data.length : ℚ) (validPoints data))
        data) with
    | nan =>
      rw [linear_mathError opts data h1 hfi h2 hr] at h
      simp [isOk] at h
    | num r2 =>
      rw [linear_success opts data r2 h1 hfi h2 hr]
      simp [getPredict, getM, getB, mkPredict]

/-- C8 witness: at precision 0 on the line y = x + 1, predict at the raw
x = 1.5 computes 1 * 1.5 + 1 = 2.5 and only then rounds, giving the point
(2, 3); rounding x before the multiply would have given y = 3 from x = 2 as
well, but y here is 3 because round (2.5, 0) = 3 (half away from zero
upward), matching the raw-x contract. -/
theorem spec_C8_witness :
    isOk (linear optsC8 exC8data) = true
    ∧ getPredict (linear optsC8 exC8data) (3/2) =
      (roundQ (3/2) (mergedPrecision optsC8),
       roundQ (getM (linear optsC8 exC8data) * (3/2) + getB (linear optsC8 exC8data))
         (mergedPrecision optsC8))
    ∧ getPredict (linear optsC8 exC8data) (3/2) = (2, 3) := by
  have h : isOk (linear optsC8 exC8data) = true := by
    norm_num [linear, mergedPrecision, mergeOptions, DEFAULT_OPTIONS, optsC8, exC8data,
      validPoints, sumX, sumY, sumX2, sumXY, runOf, riseOf, linSlope, linIntercept,
      roundQ, jsRound, mkPoints, mkPredict, rSquaredJ, obsOf, meanYOf, sumObsY, ssyyOf,
      ssyyAux, sseOf, firstInvalid, firstInvalidAux, isValidQ, isValidY, qNonFinite, isOk]
  refine ⟨h, spec_C8 optsC8 exC8data h (3/2), ?_⟩
  norm_num [linear, mergedPrecision, mergeOptions, DEFAULT_OPTIONS, optsC8, exC8data,
    validPoints, sumX, sumY, sumX2, sumXY, runOf, riseOf, linSlope, linIntercept,
    roundQ, jsRound, mkPoints, mkPredict, rSquaredJ, obsOf, meanYOf, sumObsY, ssyyOf,
    ssyyAux, sseOf, firstInvalid, firstInvalidAux, isValidQ, isValidY, qNonFinite,
    getPredict]

/-- C9: for every successful fit, the emitted points sequence is obtained by
applying the predict formula to every original x, so each entry carries the
rounded x coordinate round (x, precision), not the raw input x. -/
theorem spec_C9 (opts : SuppliedOptions) (data : List DataPoint)
    (h : isOk (linear opts data) = true) :
    getPoints (linear opts data) =
      data.map (fun pt => (roundQ pt.1 (mergedPrecision opts),
        roundQ (getM (linear opts data) * pt.1 + getB (linear opts data))
          (mergedPrecision opts)))
    ∧ (getPoints (linear opts data)).map Prod.fst =
        data.map (fun pt => roundQ pt.1 (mergedPrecision opts)) := by
  rcases linear_cases data with h1 | ⟨h1, n, hfi⟩ | ⟨h1, hfi, h2⟩ | ⟨h1, hfi, h2⟩
  · rw [linear_insufficient opts data h1] at h
    simp [isOk] at h
  · rw [linear_invalid opts data n h1 hfi] at h
    simp [isOk] at h
  · rw [linear_degenerate opts data h1 hfi h2] at h
    simp [isOk] at h
  · cases hr : rSquaredJ data
      (mkPoints (mergedPrecision opts)
        (linSlope (mergedPrecision opts) (data.length : ℚ) (validPoints data))
        (linIntercept (mergedPrecision opts) (data.length : ℚ) (validPoints data))
        data) with
    | nan =>
      rw [linear_mathError opts data h1 hfi h2 hr] at h
      simp [isOk] at h
    | num r2 =>
      rw [linear_success opts data r2 h1 hfi h2 hr]
      constructor
      · simp [getPoints, getM, getB, mkPoints, mkPredict]
      · simp [getPoints, mkPoints, mkPredict, List.map_map, Function.comp]

/-- C9 witness: at precision 1 the input x 1.25 is emitted as the rounded
x 1.3 in the points sequence. -/
theorem spec_C9_witness :
    isOk (linear optsC9 exC9data) = true
    ∧ (getPoints (linear optsC9 exC9data)).map Prod.fst =
        exC9data.map (fun pt => roundQ pt.1 (mergedPrecision optsC9))
    ∧ getPoints (linear optsC9 exC9data) = [(13/10, 2), (2, 3)] := by
  have h : isOk (linear optsC9 exC9data) = true := by
    norm_num [linear, mergedPrecision, mergeOptions, DEFAULT_OPTIONS, optsC9, exC9data,
      validPoints, sumX, sumY, sumX2, sumXY, runOf, riseOf, linSlope, linIntercept,
      roundQ, jsRound, mkPoints, mkPredict, rSquaredJ, obsOf, meanYOf, sumObsY, ssyyOf,
      ssyyAux, sseOf, firstInvalid, firstInvalidAux, isValidQ, isValidY, qNonFinite, isOk]
  refine ⟨h, (spec_C9 optsC9 exC9data h).2, ?_⟩
  norm_num [linear, mergedPrecision, mergeOptions, DEFAULT_OPTIONS, optsC9, exC9data,
    validPoints, sumX, sumY, sumX2, sumXY, runOf, riseOf, linSlope, linIntercept,
    roundQ, jsRound, mkPoints, mkPredict, rSquaredJ, obsOf, meanYOf, sumObsY, ssyyOf,
    ssyyAux, sseOf, firstInvalid, firstInvalidAux, isValidQ, isValidY, qNonFinite,
    getPoints]

/-- C1: the older fit filters out null-y points first: it fails with
InsufficientData exactly when fewer than 2 points remain after filtering,
and on success its slope and intercept are computed from the filtered valid
points only while the emitted points sequence keeps the original input
length. -/
theorem spec_C1 (opts : SuppliedOptions) (data : List DataPoint) :
    (oldErrorTypeOf (oldLinear opts data) = some ErrorType.InsufficientData
      ↔ (validPoints data).length < 2)
    ∧ (oldIsOk (oldLinear opts data) = true →
        (oldPoints (oldLinear opts data)).length = data.length
        ∧ oldEquation (oldLinear opts data) =
            [linSlope (mergedPrecision opts) ((validPoints data).length : ℚ)
               (validPoints data),
             linIntercept (mergedPrecision opts) ((validPoints data).length : ℚ)
               (validPoints data)]) := by
  by_cases hf : (validPoints data).length < 2
  · constructor
    · simp [oldLinear, hf, oldErrorTypeOf]
    · simp [oldLinear, hf, oldIsOk]
  · by_cases h2 : runOf ((validPoints data).length : ℚ) (validPoints data) = 0
    · constructor
      · simp [oldLinear, hf, h2, oldErrorTypeOf]
      · simp [oldLinear, hf, h2, oldIsOk]
    · constructor
      · simp [oldLinear, hf, h2, oldErrorTypeOf]
      · intro _
        constructor
        · simp [oldLinear, hf, h2, oldPoints, mkPoints]
        · simp [oldLinear, hf, h2, oldEquation]

/-- C1 witness: on the spec example [[1,2],[2,null],[3,4],[4,null],[5,6]]
the older fit succeeds over the 3 valid points with gradient 1 and
intercept 1, yet emits 5 fitted points. -/
theorem spec_C1_witness :
    oldIsOk (oldLinear noOptions exC1data) = true
    ∧ (oldPoints (oldLinear noOptions exC1data)).length = 5
    ∧ oldEquation (oldLinear noOptions exC1data) = [1, 1] := by
  have hE : oldIsOk (oldLinear noOptions exC1data) = true := by
    norm_num [oldLinear, mergedPrecision, mergeOptions, DEFAULT_OPTIONS, noOptions,
      exC1data, validPoints, runOf, riseOf, sumX, sumY, sumX2, sumXY, oldIsOk]
  have h := (spec_C1 noOptions exC1data).2 hE
  refine ⟨hE, ?_, ?_⟩
  · rw [h.1]
    norm_num [exC1data]
  · rw [h.2]
    norm_num [exC1data, validPoints, linSlope, linIntercept, riseOf, runOf,
      sumX, sumY, sumX2, sumXY, roundQ, jsRound, mergedPrecision, mergeOptions,
      DEFAULT_OPTIONS, noOptions]
